import Mathlib

/-!
Verification of the mood-wall card service.

Shallow embedding of the core of the mood-wall repository: the chunk
splitter/joiner (`splitBase64`), the client image pipeline
(`processImageFileSpecV2`), the card record mapper (`rowToCard` /
`cardToRow`) and the two server variants' route handlers (the file app.js
and the unnamed second server file, called "p000" below; the two client
files share `splitBase64` and `processImageFileSpecV2` verbatim).

Modelling conventions:
* JavaScript strings are Lean `String`s (or `List Char` for the splitter,
  where chunk arithmetic is over code-unit lists).
* Spreadsheet cells are `JVal`s; the store is modelled as value-preserving
  (a value written with `USER_ENTERED` reads back as itself).
* JavaScript numbers are exact rationals `ℚ`; see the comments at the
  individual definitions for the places where this abstracts IEEE floats.
* Request bodies are `CardObj`s: the fields the handlers touch, with the
  dynamic `||`-defaulting behaviour kept at the cell level.  `text` and
  `parts` are narrowed to `String` / `List String` (the client always
  sends strings there); non-string values in those positions behave like
  the empty string at the store, as noted inline.
-/

/-- A JavaScript value as it appears in request bodies and sheet cells. -/
inductive JVal where
  | str : String → JVal
  | num : ℚ → JVal
  | null : JVal
  | undefVal : JVal
deriving DecidableEq, Repr

/-- JavaScript truthiness for the values above (NaN never arises here:
parse failures are handled with `Option` before a number is built). -/
def truthy : JVal → Bool
  | .str s => !s.isEmpty
  | .num q => decide (q ≠ 0)
  | .null => false
  | .undefVal => false

/-- `a || b` on JavaScript values. -/
def jsOr (a b : JVal) : JVal := if truthy a then a else b

/-- Cell `i` of a row; absent cells are `undefined`, as in JS indexing. -/
def cellAt (row : List JVal) (i : Nat) : JVal := row.getD i .undefVal

/-! ## Chunk splitter / joiner

`function splitBase64(str, n) { const len = Math.ceil(str.length / n);
const arr = []; for (let i = 0; i < n; i++) arr.push(str.slice(i * len,
(i + 1) * len)); return arr; }` — identical in both client files.
Strings are modelled as their lists of code units. -/

/-- `splitBase64` from the client files.  `(s.length + n - 1) / n` is
`Math.ceil(str.length / n)` for the positive `n` the code uses (always 3),
and `slice(i*len, (i+1)*len)` is `drop (i*len)` then `take len`. -/
def splitBase64 (s : List Char) (n : Nat) : List (List Char) :=
  let len := (s.length + n - 1) / n
  (List.range n).map (fun i => (s.drop (i * len)).take len)

/-- Rejoining fragments: the clients do `parts.join('')`. -/
def joinChunks (parts : List (List Char)) : List Char := parts.flatten

/-- C2: joining the fragments of `split(body, 3)` gives back `body`. -/
theorem c2_join_split (s : List Char) : joinChunks (splitBase64 s 3) = s := by
  have hrange : List.range 3 = [0, 1, 2] := by decide
  simp only [joinChunks, splitBase64, hrange, List.map_cons, List.map_nil,
    List.flatten_cons, List.flatten_nil, Nat.zero_mul, Nat.one_mul,
    List.drop_zero, List.append_nil]
  set len := (s.length + 3 - 1) / 3 with hlen
  have h3 : s.length ≤ 3 * len := by omega
  conv_rhs => rw [← List.take_append_drop len s]
  congr 1
  have h2 : 2 * len = len + len := by ring
  rw [h2, ← List.drop_drop]
  conv_rhs => rw [← List.take_append_drop len (s.drop len)]
  congr 1
  apply List.take_of_length_le
  simp only [List.length_drop]
  omega

/-- C6 counterexample: splitting the one-character body `"a"` gives
`["a", "", ""]`.  The middle fragment — which is not the last one — is
empty, so its length `0` differs from `ceil(1/3) = 1`, refuting the claim
that no fragment other than the last is shorter than `ceil(len/3)`. -/
theorem c6_counterexample :
    splitBase64 ['a'] 3 = [['a'], [], []]
    ∧ ((splitBase64 ['a'] 3).getD 1 []).length = 0
    ∧ (1 + 3 - 1) / 3 = 1 := by
  decide

/-- C6 (amended): `split(body, 3)` always returns 3 fragments; fragment
`i` has length `min len (len(body) - i*len)` with `len = ceil(len(body)/3)`
— so fragments are full-length until the body is exhausted and every later
fragment (not only the last) may be shorter or empty — and the empty body
yields three empty strings. -/
theorem c6_amended (s : List Char) (i : Nat) :
    (splitBase64 s 3).length = 3
    ∧ ((splitBase64 s 3).getD i []).length =
        min ((s.length + 3 - 1) / 3) (s.length - i * ((s.length + 3 - 1) / 3))
    ∧ splitBase64 ([] : List Char) 3 = [[], [], []] := by
  have hrange : List.range 3 = [0, 1, 2] := by decide
  refine ⟨by simp [splitBase64], ?_, by decide⟩
  set len := (s.length + 3 - 1) / 3 with hlen
  have h3 : s.length ≤ 3 * len := by omega
  simp only [splitBase64, hrange, List.map_cons, List.map_nil]
  match i with
  | 0 => simp [List.getD]; omega
  | 1 => simp [List.getD]; omega
  | 2 => simp [List.getD]; omega
  | j + 3 =>
    have hout : s.length - (j + 3) * len = 0 := by
      have : 3 * len ≤ (j + 3) * len := Nat.mul_le_mul_right len (by omega)
      omega
    rw [hout]
    simp [List.getD]

/-! ## Image codec (client, `processImageFileSpecV2`)

The encoder (`compressImage` in one client file, `drawAndWatermark` in the
other: canvas drawing plus `toBlob('image/jpeg', q)`) is treated as an
abstract function from the target dimensions and the quality setting to a
blob, per the claim.  The JS quality variable starts at 0.9 and is
decremented by 0.1; it is modelled as a natural number of tenths.  IEEE
drift (0.9 - 0.1 = 0.8000…01 etc.) keeps each float value slightly above
the exact tenth, so the `quality >= 0.5` guard takes the same branches and
the sequence of qualities tried is the same (9,8,7,6,5,4 tenths). -/

/-- A decoded input bitmap (only its dimensions matter here). -/
structure ImgBitmap where
  width : Nat
  height : Nat
deriving DecidableEq, Repr

/-- An encoded blob: its byte size, MIME type, and the base64 body its
data-URL carries (`blobToDataURL` / `FileReader.readAsDataURL`). -/
structure Blob where
  size : Nat
  mime : String
  b64Body : List Char
deriving DecidableEq, Repr

/-- The record `processImageFileSpecV2` resolves with. -/
structure ProcessedImage where
  mime : String
  parts : List (List Char)
  header : List Char
  sizeBytes : Nat
deriving DecidableEq, Repr

/-- `Math.round`: round half away from zero; the dimensions here are
non-negative, where that is `⌊q + 1/2⌋`. -/
def jsRound (q : ℚ) : Int := ⌊q + 1 / 2⌋

/-- The dimension clamp at the top of `processImageFileSpecV2`: downscale
so the longer side is at most 1200, else upscale so it is at least 600,
else keep the native size.  (A 0×0 bitmap would divide by zero in JS,
giving Infinity; `ℚ` division by zero gives 0 — degenerate inputs the
browser never produces.) -/
def resizeDims (w h : Nat) : Int × Int :=
  let mx := max w h
  if 1200 < mx then
    let ratio : ℚ := 1200 / mx
    (jsRound (w * ratio), jsRound (h * ratio))
  else if mx < 600 then
    let ratio : ℚ := 600 / mx
    (jsRound (w * ratio), jsRound (h * ratio))
  else ((w : Int), (h : Int))

/-- The recompression loop: `while (blob.size > targetMaxBytes && quality
>= 0.5) { quality -= 0.1; blob = await compressImage(img, w, h, quality); }`
with `q` the current quality in tenths (so the loop re-encodes at `q - 1`
and the structural recursion is on `q`). -/
def compressLoop (enc : Nat → Blob) (targetMaxBytes : Nat) :
    Nat → Blob → Blob
  | 0, blob => blob
  | q + 1, blob =>
    if targetMaxBytes < blob.size ∧ 5 ≤ q + 1 then
      compressLoop enc targetMaxBytes q (enc q)
    else blob

/-- `processImageFileSpecV2(file, targetMaxBytes)`, with the bitmap decode
and the encoder abstracted: resize, encode at quality 0.9, step the quality
down while over budget, throw `'圖片過大無法壓縮'` when still over budget,
otherwise split the data-URL into its `base64,`-terminated header and the
body, and return the parts of the body split in 3. -/
def processImageFileSpecV2 (img : ImgBitmap)
    (compress : Int → Int → Nat → Blob) (targetMaxBytes : Nat) :
    Except String ProcessedImage :=
  let wh := resizeDims img.width img.height
  let blob := compressLoop (fun q => compress wh.1 wh.2 q) targetMaxBytes 9
    (compress wh.1 wh.2 9)
  if targetMaxBytes < blob.size then .error "圖片過大無法壓縮"
  else .ok { mime := blob.mime, parts := splitBase64 blob.b64Body 3,
             header := ("data:" ++ blob.mime ++ ";base64,").data,
             sizeBytes := blob.size }

/-- C3: for every input bitmap, abstract encoder and byte budget, the
pipeline either returns a payload of at most the budget, or fails with the
size-exceeded error; it never returns a payload larger than the budget. -/
theorem c3_size_budget (img : ImgBitmap) (compress : Int → Int → Nat → Blob)
    (B : Nat) :
    (∀ r, processImageFileSpecV2 img compress B = .ok r → r.sizeBytes ≤ B)
    ∧ (∀ e, processImageFileSpecV2 img compress B = .error e →
        e = "圖片過大無法壓縮") := by
  constructor <;> intro x h <;>
    simp only [processImageFileSpecV2] at h <;> split at h
  · exact absurd h (by simp)
  · cases h
    simpa using Nat.le_of_not_lt (by assumption)
  · cases h
    rfl
  · exact absurd h (by simp)

/-- A constant abstract encoder used to witness `c3_size_budget`. -/
def constCompress : Int → Int → Nat → Blob :=
  fun _ _ _ => { size := 50, mime := "image/jpeg", b64Body := ['Q', 'Q'] }

/-- The result `processImageFileSpecV2` produces for `constCompress` on an
800×600 bitmap with budget 100. -/
def sampleProcessed : ProcessedImage :=
  { mime := "image/jpeg", parts := [['Q'], ['Q'], []],
    header := "data:image/jpeg;base64,".data, sizeBytes := 50 }

/-- Witness for C3 at a concrete encoder, bitmap and budget. -/
theorem c3_size_budget_witness :
    processImageFileSpecV2 ⟨800, 600⟩ constCompress 100 = .ok sampleProcessed
    ∧ sampleProcessed.sizeBytes ≤ 100 :=
  ⟨by rfl,
   (c3_size_budget ⟨800, 600⟩ constCompress 100).1 sampleProcessed (by rfl)⟩

/-! ## Card record mapper (p000 server: `rowToCard` / `cardToRow`)

Lenient numeric parsing mirrors `parseInt` / `parseFloat` / `Number` on
the values that occur here: leading-digits radix-10 parsing without the
whitespace-skipping and exponent forms the sheets never contain. -/

/-- Accumulate a run of leading decimal digits: value, digit count, rest. -/
def takeDigits (acc : Nat) (cnt : Nat) : List Char → Nat × Nat × List Char
  | [] => (acc, cnt, [])
  | c :: cs =>
    if c.isDigit then takeDigits (acc * 10 + (c.toNat - 48)) (cnt + 1) cs
    else (acc, cnt, c :: cs)

/-- Strip an optional leading sign, returning the sign as `1` or `-1`. -/
def takeSign : List Char → Int × List Char
  | '-' :: cs => (-1, cs)
  | '+' :: cs => (1, cs)
  | cs => (1, cs)

/-- `parseInt(s)`: optional sign then at least one leading digit;
anything else is NaN (`none`). -/
def jsParseIntStr (s : String) : Option Int :=
  let sc := takeSign s.data
  let dv := takeDigits 0 0 sc.2
  if dv.2.1 = 0 then none else some (sc.1 * dv.1)

/-- `parseFloat(s)`: optional sign, leading digits, optional fraction;
at least one digit on one side of the dot.  Exponent notation is not
modelled (it never appears in the stored cells). -/
def jsParseFloatStr (s : String) : Option ℚ :=
  let sc := takeSign s.data
  let ip := takeDigits 0 0 sc.2
  match ip.2.2 with
  | '.' :: rest =>
    let fp := takeDigits 0 0 rest
    if ip.2.1 = 0 ∧ fp.2.1 = 0 then none
    else some ((sc.1 : ℚ) * ((ip.1 : ℚ) + (fp.1 : ℚ) / (10 ^ fp.2.1)))
  | _ => if ip.2.1 = 0 then none else some ((sc.1 : ℚ) * (ip.1 : ℚ))

/-- Truncation toward zero, as JS's number-to-integer steps do. -/
def jsTrunc (q : ℚ) : Int := if 0 ≤ q then ⌊q⌋ else ⌈q⌉

/-- `parseInt` on a cell value: numbers go through their decimal string
(truncation); non-strings other than numbers are NaN. -/
def jsParseInt : JVal → Option Int
  | .str s => jsParseIntStr s
  | .num q => some (jsTrunc q)
  | _ => none

/-- `parseFloat` on a cell value. -/
def jsParseFloat : JVal → Option ℚ
  | .str s => jsParseFloatStr s
  | .num q => some q
  | _ => none

/-- `Number(v)`: full-string conversion; the empty string and `null`
convert to 0, `undefined` and unparseable strings to NaN (`none`). -/
def jsNumber : JVal → Option ℚ
  | .str s =>
    if s.isEmpty then some 0
    else
      let sc := takeSign s.data
      let ip := takeDigits 0 0 sc.2
      match ip.2.2 with
      | '.' :: rest =>
        let fp := takeDigits 0 0 rest
        if (ip.2.1 = 0 ∧ fp.2.1 = 0) ∨ fp.2.2 ≠ [] then none
        else some ((sc.1 : ℚ) * ((ip.1 : ℚ) + (fp.1 : ℚ) / (10 ^ fp.2.1)))
      | [] => if ip.2.1 = 0 then none else some ((sc.1 : ℚ) * (ip.1 : ℚ))
      | _ => none
  | .num q => some q
  | .null => some 0
  | .undefVal => none

/-- `parseInt(row[2]) || 1`: NaN and 0 both fall back to mood 1. -/
def moodOr1 (v : JVal) : ℚ :=
  match jsParseInt v with
  | some n => if n = 0 then 1 else (n : ℚ)
  | none => 1

/-- `parseFloat(cell) || 0`: NaN falls back to 0 (and 0 stays 0). -/
def floatOr0 (v : JVal) : ℚ :=
  match jsParseFloat v with
  | some q => q
  | none => 0

/-- `Number(v) || 0`, the coercion the p000 create route applies to
x, y and r. -/
def numberOr0 (v : JVal) : JVal :=
  JVal.num ((jsNumber v).getD 0)

/-- A card object as the handlers see it (request body, or the result of
`rowToCard`).  `text` and `parts` are narrowed to strings — the client
always sends strings there, and at the store a non-string behaves like the
written-back empty cell. -/
structure CardObj where
  id : JVal
  text : String
  mood : JVal
  style : JVal
  header : JVal
  parts : List String
  x : JVal
  y : JVal
  r : JVal
  createdAt : JVal
deriving DecidableEq, Repr

/-- The fragment filter in `rowToCard`:
`[row[5], row[6], row[7]].filter(p => p && p.length > 0)` keeps exactly
the non-empty strings (a number has no `.length`, so it is dropped). -/
def keepFragment : JVal → Option String
  | .str s => if s.isEmpty then none else some s
  | _ => none

/-- `rowToCard(row)` from the p000 server: `null` for an empty row or a
header row (first cell exactly `'id'` or `'ID'`); otherwise lenient
parsing with the `||` defaults of the source. -/
def rowToCard (row : List JVal) : Option CardObj :=
  if row = [] then none
  else if cellAt row 0 = .str "id" ∨ cellAt row 0 = .str "ID" then none
  else some
    { id := cellAt row 0
      text := match cellAt row 1 with
              | .str s => s
              | _ => ""
      mood := .num (moodOr1 (cellAt row 2))
      style := jsOr (cellAt row 3) (.str "polaroid")
      header := jsOr (cellAt row 4) (.str "")
      parts := [cellAt row 5, cellAt row 6, cellAt row 7].filterMap keepFragment
      x := .num (floatOr0 (cellAt row 8))
      y := .num (floatOr0 (cellAt row 9))
      r := .num (floatOr0 (cellAt row 10))
      createdAt := jsOr (cellAt row 11) .null }

/-- `p[i] || ''` on the card's fragment array. -/
def partCell (parts : List String) (i : Nat) : JVal := .str (parts.getD i "")

/-- `cardToRow(card)` from the p000 server: the 12-cell row
[id, text, mood, style, header, part1, part2, part3, x, y, r, createdAt],
fragments and a missing createdAt defaulted to the empty string, every
other field written as-is.  Note: no escaping of `text` happens here. -/
def cardToRow (card : CardObj) : List JVal :=
  [card.id, .str card.text, card.mood, card.style, card.header,
   partCell card.parts 0, partCell card.parts 1, partCell card.parts 2,
   card.x, card.y, card.r, jsOr card.createdAt (.str "")]

/-! ## app.js write path -/

/-- The first character of the text is one of `=`, `+`, `-`, `@`
(the regex `/^[\=\+\-\@]/`). -/
def isFormulaStart (s : String) : Bool :=
  match s.data with
  | c :: _ => c = '=' ∨ c = '+' ∨ c = '-' ∨ c = '@'
  | [] => false

/-- The app.js text sanitization:
`(card.text && /^[\=\+\-\@]/.test(card.text)) ? "'" + card.text :
(card.text || '')` — for string texts: prefix a quote when the text starts
with a formula character, else keep it (the empty string stays empty on
both readings). -/
def sanitizeText (s : String) : String :=
  if isFormulaStart s then "\x27" ++ s else s

/-- The row the app.js create route appends (source lines 139–154): note
`card.id` appears TWICE, so this list has 13 entries and the sanitized
text sits in the third cell, not the second. -/
def appPostRow (card : CardObj) (ts : String) : List JVal :=
  [card.id,
   card.id,
   .str (sanitizeText card.text),
   card.mood,
   card.style,
   jsOr card.header (.str ""),
   partCell card.parts 0,
   partCell card.parts 1,
   partCell card.parts 2,
   card.x,
   card.y,
   card.r,
   .str ts]

/-- C1 (code bug, app.js): the row app.js appends has 13 fields with the
id duplicated in the first two cells and the text in the third — it
overflows the declared 12-column `A:L` layout — while the p000 server's
`cardToRow` does produce the claimed 12-field row with the id first and
the text second. -/
theorem c1_row_shape (c : CardObj) (ts : String) :
    (appPostRow c ts).length = 13
    ∧ (appPostRow c ts).get? 0 = some c.id
    ∧ (appPostRow c ts).get? 1 = some c.id
    ∧ (appPostRow c ts).get? 2 = some (.str (sanitizeText c.text))
    ∧ (cardToRow c).length = 12
    ∧ (cardToRow c).get? 0 = some c.id
    ∧ (cardToRow c).get? 1 = some (.str c.text) := by
  exact ⟨rfl, rfl, rfl, rfl, rfl, rfl, rfl⟩

/-! ## Route handlers

Each handler is a function from its inputs (configuration, metadata cache
state, the current store rows, the request) to a result plus the ordered
trace of backing-store calls it makes.  The store itself is the raw list
of rows of the `A:L` range, header row included. -/

/-- One backing-store call. -/
inductive Effect where
  | metaFetch : Effect
  | readRange : Effect
  | append : List JVal → Effect
  | updateRow : Nat → List JVal → Effect
  | deleteRow : Nat → Effect
deriving DecidableEq, Repr

/-- Result of a create request. -/
inductive PostResult where
  | created : PostResult
  | errTextTooLong : PostResult
  | errCapacity : PostResult
  | errTooLarge : PostResult
  | errUnavailable : PostResult
deriving DecidableEq, Repr

/-- The p000 capacity count:
`allRows.map(rowToCard).filter(c => c !== null).length`. -/
def countValidCards (rows : List (List JVal)) : Nat :=
  (rows.filterMap rowToCard).length

/-- `Number()`-coercion of x, y and r in the p000 create route. -/
def coerceXYR (c : CardObj) : CardObj :=
  { c with x := numberOr0 c.x, y := numberOr0 c.y, r := numberOr0 c.r }

/-- `POST /api/cards` of the p000 server: 503 when the client is not
configured; fetch (and cache) the sheet metadata; reject text longer than
500; coerce x/y/r to numbers; read all rows; reject when the count of
valid cards is already at the limit; else append `cardToRow` of the card.
(`!newCard || typeof newCard !== 'object'` cannot fire here: the body is
modelled as a card object.)  There is NO image-size check on this path. -/
def p000Post (cfg : Bool) (maxCards : Nat) (cache : Option String)
    (rows : List (List JVal)) (req : CardObj) :
    PostResult × List Effect :=
  if !cfg then (.errUnavailable, [])
  else
    let e0 := if cache.isNone then [Effect.metaFetch] else []
    if 500 < req.text.length then (.errTextTooLong, e0)
    else
      let card := coerceXYR req
      let e1 := e0 ++ [Effect.readRange]
      if maxCards ≤ countValidCards rows then (.errCapacity, e1)
      else (.created, e1 ++ [Effect.append (cardToRow card)])

/-- The app.js capacity count: `getRows()` drops the first (header) row
and builds an object from every remaining row, so the check counts every
data row, with no validity filtering. -/
def appDataCount (rows : List (List JVal)) : Nat :=
  if rows = [] then 0 else rows.length - 1

/-- `parts.join('').length` in the app.js size estimate. -/
def totalB64Len (parts : List String) : Nat :=
  (parts.foldl (fun a s => a ++ s) "").length

/-- `POST /api/cards` of app.js: capacity check first (raw data-row
count), then the image-size estimate `length * 0.75 > MAX * 1.1` with
strict `>`, then append the (13-cell) row.  There is NO text-length check
on this path.  JS numbers are modelled as exact rationals: 0.75 is exact
in binary floating point, and at realistic budgets the float `MAX * 1.1`
differs from the rational one by less than the 0.25 granularity of the
estimate, so the comparison takes the same branch. -/
def appPost (maxImgBytes maxCards : Nat) (rows : List (List JVal))
    (req : CardObj) (ts : String) : PostResult × List Effect :=
  let e0 := [Effect.readRange]
  if maxCards ≤ appDataCount rows then (.errCapacity, e0)
  else
    let estimatedBytes : ℚ := (totalB64Len req.parts : ℚ) * (3 / 4)
    if (maxImgBytes : ℚ) * (11 / 10) < estimatedBytes then (.errTooLarge, e0)
    else (.created, e0 ++ [Effect.append (appPostRow req ts)])

/-- The fields of a PATCH body, each possibly absent; spreading the body
over the existing card (`{ ...existingCard, ...updates }`) takes the
update's field when present. -/
structure Updates where
  id : Option JVal
  text : Option String
  mood : Option JVal
  style : Option JVal
  header : Option JVal
  parts : Option (List String)
  x : Option JVal
  y : Option JVal
  r : Option JVal
  createdAt : Option JVal
deriving DecidableEq, Repr

/-- `{ ...existingCard, ...updates }`. -/
def mergeCard (c : CardObj) (u : Updates) : CardObj :=
  { id := u.id.getD c.id
    text := u.text.getD c.text
    mood := u.mood.getD c.mood
    style := u.style.getD c.style
    header := u.header.getD c.header
    parts := u.parts.getD c.parts
    x := u.x.getD c.x
    y := u.y.getD c.y
    r := u.r.getD c.r
    createdAt := u.createdAt.getD c.createdAt }

/-- A position-only PATCH body `{x, y, r}`, as the drag-end handler of
both client files sends. -/
def posUpdates (x y r : JVal) : Updates :=
  { id := none, text := none, mood := none, style := none, header := none,
    parts := none, x := some x, y := some y, r := some r, createdAt := none }

/-- The base object for `{ ...existingCard, ...updates }` when
`rowToCard` returned `null`: every field absent.  An absent text writes
the same empty cell as `''` does, which is how it is modelled. -/
def nullCardBase : CardObj :=
  { id := .undefVal, text := "", mood := .undefVal, style := .undefVal,
    header := .undefVal, parts := [], x := .undefVal, y := .undefVal, r := .undefVal,
    createdAt := .undefVal }

/-- `rows.findIndex(p)` (with `-1` mapped to `none`). -/
def jsFindIndex {α : Type} (p : α → Bool) : List α → Option Nat
  | [] => none
  | a :: as => if p a then some 0 else (jsFindIndex p as).map (· + 1)

/-- Result of an update request. -/
inductive PatchResult where
  | updated : Nat → List JVal → PatchResult
  | notFound : PatchResult
  | errUnavailable : PatchResult
deriving DecidableEq, Repr

/-- The row the p000 update route writes back for a position-only body:
the whole row is rebuilt as `cardToRow` of the parsed old row merged with
`{x, y, r}`. -/
def p000PatchRow (row : List JVal) (x y r : JVal) : List JVal :=
  cardToRow (mergeCard ((rowToCard row).getD nullCardBase) (posUpdates x y r))

/-- `PATCH /api/cards/:id` of the p000 server: read all rows, locate the
row whose first cell is the id, 404 when absent, then rewrite the FULL row
`A{row}:L{row}` with `cardToRow({ ...rowToCard(oldRow), ...updates })`. -/
def p000Patch (cfg : Bool) (cache : Option String)
    (rows : List (List JVal)) (id : String) (u : Updates) :
    PatchResult × List Effect :=
  if !cfg then (.errUnavailable, [])
  else
    let e0 := if cache.isNone then [Effect.metaFetch] else []
    let e1 := e0 ++ [Effect.readRange]
    match jsFindIndex (fun row => cellAt row 0 == JVal.str id) rows with
    | none => (.notFound, e1)
    | some idx =>
      let newRow :=
        cardToRow (mergeCard ((rowToCard (rows.getD idx [])).getD nullCardBase) u)
      (.updated idx newRow, e1 ++ [Effect.updateRow idx newRow])

/-- `PATCH /api/cards/:id` of app.js only rewrites the sub-range
`I{row}:K{row}`, i.e. cells 8, 9 and 10 of the located row, with the raw
x, y, r from the body. -/
def appPatchRow (row : List JVal) (x y r : JVal) : List JVal :=
  ((row.set 8 x).set 9 y).set 10 r

/-! ## C4: what a position update changes -/

/-- A reachable stored row (create accepts `parts: ["", "B"]`, which
`cardToRow` writes as cells `"", "B", ""`): its fragment cells have an
empty cell before a non-empty one. -/
def fragGapRow : List JVal :=
  [.str "c1", .str "hi", .num 3, .str "polaroid", .str "h",
   .str "", .str "B", .str "", .num 1, .num 2, .num 0, .str "t"]

/-- C4 counterexample: on the p000 server a successful position-only
update of the card `"c1"` stored as `fragGapRow` rewrites the fragment
cells — the written row has `"B"` in fragment cell 5 where the stored row
had `""` (the parse/rebuild round trip drops the empty middle fragment) —
refuting the claim that only x, y and r change. -/
theorem c4_counterexample :
    (p000Patch true (some "s") [fragGapRow] "c1"
        (posUpdates (.num 5) (.num 6) (.num 0))).1
      = .updated 0 (p000PatchRow fragGapRow (.num 5) (.num 6) (.num 0))
    ∧ (p000PatchRow fragGapRow (.num 5) (.num 6) (.num 0)).get? 5
        = some (.str "B")
    ∧ fragGapRow.get? 5 = some (.str "")
    ∧ (p000PatchRow fragGapRow (.num 5) (.num 6) (.num 0)).get? 6
        = some (.str "")
    ∧ fragGapRow.get? 6 = some (.str "B") := by
  refine ⟨rfl, rfl, rfl, rfl, rfl⟩

/-- C4 (amended): a successful position update changes only the x/y/r
cells provided the stored row is in normal form — a fixed point of
`cardToRow ∘ rowToCard` — which every row the p000 server itself writes
is; in general the p000 server rewrites the whole row through that
normalization (see the counterexample).  The app.js variant's `I:K`
sub-range update changes only cells 8–10 of the stored row,
unconditionally. -/
theorem c4_amended :
    (∀ (row : List JVal) (c : CardObj) (x y r : JVal),
        rowToCard row = some c → row = cardToRow c →
        ((p000PatchRow row x y r).drop 1).take 7 = (row.drop 1).take 7)
    ∧ (∀ (row : List JVal) (x y r : JVal) (i : Nat),
        i ≠ 8 → i ≠ 9 → i ≠ 10 →
        (appPatchRow row x y r).get? i = row.get? i) := by
  constructor
  · intro row c x y r h1 h2
    subst h2
    rw [p000PatchRow, h1]
    rfl
  · intro row x y r i h8 h9 h10
    simp only [appPatchRow, List.get?_eq_getElem?]
    rw [List.getElem?_set_ne (Ne.symm h10), List.getElem?_set_ne (Ne.symm h9),
      List.getElem?_set_ne (Ne.symm h8)]

/-- A normal-form card/row pair witnessing `c4_amended`. -/
def normalCard : CardObj :=
  { id := .str "c1", text := "hi", mood := .num 3, style := .str "polaroid",
    header := .str "h", parts := ["B"], x := .num 1, y := .num 2,
    r := .num 0, createdAt := .str "t" }

/-- The stored row of `normalCard`. -/
def normalRow : List JVal := cardToRow normalCard

/-- Witness for C4 (amended) at a concrete normal-form row. -/
theorem c4_amended_witness :
    ((p000PatchRow normalRow (.num 9) (.num 8) (.num 7)).drop 1).take 7
      = (normalRow.drop 1).take 7
    ∧ (appPatchRow normalRow (.num 9) (.num 8) (.num 7)).get? 0
      = normalRow.get? 0 :=
  ⟨c4_amended.1 normalRow normalCard (.num 9) (.num 8) (.num 7) (by rfl) rfl,
   c4_amended.2 normalRow (.num 9) (.num 8) (.num 7) 0
     (by decide) (by decide) (by decide)⟩

/-! ## C7, C8, C5, C9: create-route checks -/

/-- A plain well-formed create request body. -/
def baseReq : CardObj :=
  { id := .str "card_1", text := "hi", mood := .num 3,
    style := .str "polaroid", header := .str "", parts := [],
    x := .num 10, y := .num 20, r := .num 0, createdAt := .str "t" }

/-- C7: on the p000 server (whose capacity check counts exactly the rows
that `rowToCard` maps to a non-null card, as the claim describes), a
create request that passes validation is rejected with the capacity error
exactly when the store already holds at least `MAX_CARDS` valid cards,
and succeeds when it holds `MAX_CARDS - 1`. -/
theorem c7_capacity (maxCards : Nat) (cache : Option String)
    (rows : List (List JVal)) (req : CardObj)
    (hmax : 1 ≤ maxCards) (htext : req.text.length ≤ 500) :
    ((p000Post true maxCards cache rows req).1 = .errCapacity
        ↔ maxCards ≤ countValidCards rows)
    ∧ (countValidCards rows = maxCards - 1 →
        (p000Post true maxCards cache rows req).1 = .created) := by
  have hnotlong : ¬ 500 < req.text.length := by omega
  by_cases hc : maxCards ≤ countValidCards rows
  · constructor
    · simp [p000Post, hnotlong, hc]
    · intro heq
      omega
  · constructor
    · simp [p000Post, hnotlong, hc]
    · intro _
      simp [p000Post, hnotlong, hc]

/-- Witness for C7 on an empty store with `MAX_CARDS = 1`. -/
theorem c7_capacity_witness :
    ((p000Post true 1 none [] baseReq).1 = .errCapacity
        ↔ 1 ≤ countValidCards [])
    ∧ (countValidCards [] = 1 - 1 →
        (p000Post true 1 none [] baseReq).1 = .created) :=
  c7_capacity 1 none [] baseReq (by decide) (by decide)

/-- A 501-character text. -/
def longText : String := String.mk (List.replicate 501 'a')

/-- A create request whose text is 501 characters long. -/
def req501 : CardObj := { baseReq with text := longText }

set_option maxRecDepth 4000 in
/-- C8 counterexample: app.js does not length-check the text at all — a
create with a 501-character text sails through and is appended (only the
p000 server implements the 500-character limit). -/
theorem c8_counterexample :
    req501.text.length = 501
    ∧ (appPost 102400 7 [[JVal.str "id"]] req501 "t").1 = .created
    ∧ Effect.append (appPostRow req501 "t")
        ∈ (appPost 102400 7 [[JVal.str "id"]] req501 "t").2 := by
  refine ⟨?_, ?_, ?_⟩
  · simp [req501, longText, String.length]
  · simp [appPost, appDataCount, totalB64Len, req501, baseReq]
    norm_num
  · simp [appPost, appDataCount, totalB64Len, req501, baseReq]
    norm_num

/-- C8 (amended): on the p000 server a create whose text is longer than
500 characters is rejected with the validation error before any read or
write of the card table — the only backing-store call that may precede the
rejection is the memoized worksheet-metadata fetch on a cold cache.
(app.js does not length-check text; see the counterexample.) -/
theorem c8_amended (maxCards : Nat) (cache : Option String)
    (rows : List (List JVal)) (req : CardObj)
    (h : 500 < req.text.length) :
    (p000Post true maxCards cache rows req).1 = .errTextTooLong
    ∧ ((p000Post true maxCards cache rows req).2).all
        (fun e => e == Effect.metaFetch) = true := by
  cases cache <;> simp [p000Post, h]

set_option maxRecDepth 4000 in
/-- Witness for C8 (amended) at the 501-character request on a cold
metadata cache. -/
theorem c8_amended_witness :
    (p000Post true 7 none [] req501).1 = .errTextTooLong
    ∧ ((p000Post true 7 none [] req501).2).all
        (fun e => e == Effect.metaFetch) = true :=
  c8_amended 7 none [] req501 (by decide)

/-- A request whose fragments total 23 base64 characters: with budget 15,
the estimate `23 * 0.75 = 17.25` exceeds `15 * 1.1 = 16.5`. -/
def req23 : CardObj := { baseReq with parts := [String.mk (List.replicate 23 'a')] }

/-- A request whose fragments total 22 base64 characters: with budget 15,
the estimate `22 * 0.75 = 16.5` EQUALS `15 * 1.1` exactly. -/
def req22 : CardObj := { baseReq with parts := [String.mk (List.replicate 22 'a')] }

/-- C5 (code bug): app.js rejects with the size error exactly on a
strictly-greater estimate — at an estimate exactly equal to
`budget * 1.1` the request is accepted and proceeds to the append — but
the p000 server performs NO size check at all: the same oversized request
is accepted and appended there, contradicting the claim (and the README's
documented 110% rejection). -/
theorem c5_size_check :
    (appPost 15 7 [[JVal.str "id"]] req23 "t").1 = .errTooLarge
    ∧ (appPost 15 7 [[JVal.str "id"]] req22 "t").1 = .created
    ∧ Effect.append (appPostRow req22 "t")
        ∈ (appPost 15 7 [[JVal.str "id"]] req22 "t").2
    ∧ (p000Post true 7 none [] req23).1 = .created
    ∧ Effect.append (cardToRow (coerceXYR req23))
        ∈ (p000Post true 7 none [] req23).2 := by
  have h23 : totalB64Len req23.parts = 23 := rfl
  have h22 : totalB64Len req22.parts = 22 := rfl
  refine ⟨?_, ?_, ?_, ?_, ?_⟩
  · simp [appPost, appDataCount, h23]
    norm_num
  · simp [appPost, appDataCount, h22]
    norm_num
  · simp [appPost, appDataCount, h22]
    norm_num
  · rfl
  · have ht : ¬ 500 < req23.text.length := by decide
    simp [p000Post, countValidCards, ht]

/-- The card a p000 create stores for the formula-starting text `=1+1`. -/
def evilCard : CardObj := { baseReq with id := .str "c9", text := "=1+1" }

/-- C9 (code bug): app.js's write path does prefix a quote onto texts
starting with `=`, `+`, `-` or `@` and leaves other texts unchanged, and
neither read path strips the prefix — but the p000 server's `cardToRow`
writes the text verbatim, with no neutralizing prefix at all,
contradicting the claim (and the README's CSV-injection note). -/
theorem c9_escaping :
    sanitizeText "=1+1" = "\x27=1+1"
    ∧ sanitizeText "+x" = "\x27+x"
    ∧ sanitizeText "-x" = "\x27-x"
    ∧ sanitizeText "@x" = "\x27@x"
    ∧ sanitizeText "hello" = "hello"
    ∧ (appPostRow evilCard "t").get? 2 = some (.str "\x27=1+1")
    ∧ (cardToRow evilCard).get? 1 = some (.str "=1+1")
    ∧ ((rowToCard (cardToRow { evilCard with text := "\x27=1+1" })).map
        (fun c => c.text)) = some "\x27=1+1" := by
  refine ⟨rfl, rfl, rfl, rfl, rfl, rfl, rfl, rfl⟩

/-! ## C10: the p000 update-by-id semantics -/

/-- C10: the p000 update route rewrites the located row as `cardToRow` of
`rowToCard(oldRow)` overridden by every field present in the request body.
The extra conjuncts exhibit the stated consequences at concrete rows: a
pure `{x,y,r}` body still rewrites all 12 columns through the
normalization (here shifting the empty middle fragment of `fragGapRow`),
a one-cell row gets its absent text defaulted to `''`, and a body that
also carries `text` silently overwrites the stored text. -/
theorem c10_patch_merge (cache : Option String) (rows : List (List JVal))
    (id : String) (u : Updates) (idx : Nat)
    (h : jsFindIndex (fun row => cellAt row 0 == JVal.str id) rows = some idx) :
    (p000Patch true cache rows id u).1
      = .updated idx
          (cardToRow (mergeCard ((rowToCard (rows.getD idx [])).getD nullCardBase) u))
    ∧ (p000PatchRow fragGapRow (.num 7) (.num 8) (.num 9)).length = 12
    ∧ (p000PatchRow fragGapRow (.num 7) (.num 8) (.num 9)).get? 6
        = some (.str "")
    ∧ (p000PatchRow [JVal.str "b1"] (.num 7) (.num 8) (.num 9)).get? 1
        = some (.str "")
    ∧ (cardToRow (mergeCard ((rowToCard normalRow).getD nullCardBase)
          { posUpdates (.num 7) (.num 8) (.num 9) with text := some "new" })).get? 1
        = some (.str "new") := by
  refine ⟨?_, rfl, rfl, rfl, rfl⟩
  simp [p000Patch, h]

/-- Witness for C10 at a concrete one-row store. -/
theorem c10_patch_merge_witness :
    (p000Patch true (some "s") [normalRow] "c1"
        (posUpdates (.num 4) (.num 4) (.num 4))).1
      = .updated 0
          (cardToRow (mergeCard ((rowToCard ([normalRow].getD 0 [])).getD nullCardBase)
            (posUpdates (.num 4) (.num 4) (.num 4))))
    ∧ (p000PatchRow fragGapRow (.num 7) (.num 8) (.num 9)).length = 12
    ∧ (p000PatchRow fragGapRow (.num 7) (.num 8) (.num 9)).get? 6
        = some (.str "")
    ∧ (p000PatchRow [JVal.str "b1"] (.num 7) (.num 8) (.num 9)).get? 1
        = some (.str "")
    ∧ (cardToRow (mergeCard ((rowToCard normalRow).getD nullCardBase)
          { posUpdates (.num 7) (.num 8) (.num 9) with text := some "new" })).get? 1
        = some (.str "new") :=
  c10_patch_merge (some "s") [normalRow] "c1"
    (posUpdates (.num 4) (.num 4) (.num 4)) 0 (by rfl)
